import Mathlib

/-!
Formal model of the ranked-lane update endpoint of `src/server.js`
(shiptivitas-2).

The server keeps a single SQLite table `clients` whose rows carry an integer
`id`, a `status` column (the lane, a nullable string) and an integer
`priority` (the rank).  The PUT `/api/v1/clients/:id` handler is the only
code path that mutates `status`/`priority`; it is embedded here statement by
statement:

* `validatePriority` models the `validatePriority` helper (lines 63-74);
* `shiftUpdate` models `UPDATE clients SET priority = priority + 1 WHERE
  status = ? AND priority >= ?` (line 157), including the SQL semantics of
  comparing against a NULL bound parameter (`status = NULL` matches no row,
  which is what node-sqlite3 produces when the request body has no `status`:
  `undefined` is bound as NULL);
* `setUpdate` models `UPDATE clients SET status = ?, priority = ? WHERE
  id = ?` (line 165), again binding an absent `status` as NULL;
* `statusUpdate` models `UPDATE clients SET status = ? WHERE id = ?`
  (line 176);
* `updateRecord` models the whole handler (lines 130-190): id validation,
  the lane check guarded by JS truthiness (`status && ...`), the
  `if (priority)` truthiness test, `validatePriority`, the two-statement
  transaction and the final `SELECT *` read-back.

Requests are `(id, status?, priority?)` where the two optional fields are
`Option`s; JS truthiness of the request fields is modelled explicitly
(`truthyStr`, `truthyInt`): the empty string and the number 0 are falsy.
-/

/-- A row of the `clients` table: integer id, nullable lane string, rank. -/
structure Client where
  id : Int
  status : Option String
  priority : Int
deriving Repr, DecidableEq

/-- The lane token for the backlog lane. -/
def backlogLane : String := "backlog"

/-- The lane token for the in-progress lane. -/
def inProgressLane : String := "inProgress"

/-- The lane token for the complete lane. -/
def completeLane : String := "complete"

/-- A lane token outside the closed set, used as a concrete invalid lane. -/
def urgentLane : String := "urgent"

/-- The empty string, a falsy value for the JS truthiness checks. -/
def emptyStr : String := ""

/-- The closed set of valid lane tokens checked by the handler (line 139). -/
def lanes : List String := [backlogLane, inProgressLane, completeLane]

/-- Responses the PUT handler can send: 400 for an unknown id, 400 for a bad
lane, 400 for a bad rank, or 200 with the full listing of all rows. -/
inductive Response where
  | notFound
  | invalidStatus
  | invalidPriority
  | listing (rows : List Client)
deriving Repr, DecidableEq

/-- JS truthiness of the optional `status` request field: absent
(`undefined`) and the empty string are falsy. -/
def truthyStr : Option String → Bool
  | none => false
  | some s => s != ""

/-- JS truthiness of the optional `priority` request field: absent
(`undefined`) and the number 0 are falsy. -/
def truthyInt : Option Int → Bool
  | none => false
  | some n => n != 0

/-- Model of `validatePriority` (src/server.js lines 63-74): a priority is
valid unless it is `<= 0` (the `isNaN` disjunct cannot fire on an integer). -/
def validatePriority (p : Int) : Bool :=
  if p ≤ 0 then false else true

/-- SQL equality `status = ?` under three-valued logic: a NULL on either
side never compares equal, so a row matches only when both the bound
parameter and the column are non-NULL and equal. -/
def sqlStatusEq : Option String → Option String → Bool
  | some s, some t => s == t
  | _, _ => false

/-- Effect of the displacement-shift UPDATE on a single row: a row whose
`status` matches the bound parameter and whose `priority` is `>= p` has its
priority incremented. -/
def shiftRow (status : Option String) (p : Int) (c : Client) : Client :=
  if sqlStatusEq status c.status = true ∧ p ≤ c.priority then
    { c with priority := c.priority + 1 }
  else c

/-- Model of `UPDATE clients SET priority = priority + 1 WHERE status = ?
AND priority >= ?` (src/server.js line 157).  Note the WHERE clause does not
exclude the target row itself. -/
def shiftUpdate (status : Option String) (p : Int) (cs : List Client) : List Client :=
  cs.map (shiftRow status p)

/-- Effect of the target-set UPDATE on a single row: the row with the given
id gets the bound `status` (NULL when the request carried none) and the
bound priority. -/
def setRow (status : Option String) (p : Int) (id : Int) (c : Client) : Client :=
  if c.id = id then { c with status := status, priority := p } else c

/-- Model of `UPDATE clients SET status = ?, priority = ? WHERE id = ?`
(src/server.js line 165).  When the request supplied no `status`,
node-sqlite3 binds `undefined` as NULL, so the row's lane is set to NULL. -/
def setUpdate (status : Option String) (p : Int) (id : Int) (cs : List Client) : List Client :=
  cs.map (setRow status p id)

/-- Effect of the status-only UPDATE on a single row. -/
def statusRow (status : Option String) (id : Int) (c : Client) : Client :=
  if c.id = id then { c with status := status } else c

/-- Model of `UPDATE clients SET status = ? WHERE id = ?` (src/server.js
line 176), the branch taken when `priority` is falsy but `status` is truthy. -/
def statusUpdate (status : Option String) (id : Int) (cs : List Client) : List Client :=
  cs.map (statusRow status id)

/-- The lane-validity guard of the handler (src/server.js line 139):
`if (status && !['backlog','inProgress','complete'].includes(status))`.
Because of JS truthiness the guard is skipped when `status` is absent or
the empty string. -/
def statusCheckFails (status : Option String) : Bool :=
  truthyStr status && !(lanes.contains (status.getD ""))

/-- Model of the PUT `/api/v1/clients/:id` handler (src/server.js lines
130-190) acting on the table state `cs`.  Returns the response sent and the
table state after the request.  Control flow mirrors the source: resolve the
id (`validateId`), check the lane token, then `if (priority)` runs
`validatePriority` and the two-statement transaction, `else if (status)`
runs the lone status update, and the handler finally reads back all rows. -/
def updateRecord (cs : List Client) (id : Int) (status : Option String)
    (priority : Option Int) : Response × List Client :=
  if (cs.any fun c => c.id == id) = false then (Response.notFound, cs)
  else if statusCheckFails status = true then (Response.invalidStatus, cs)
  else if truthyInt priority = true then
    let p := priority.getD 0
    if validatePriority p = false then (Response.invalidPriority, cs)
    else
      let cs2 := setUpdate status p id (shiftUpdate status p cs)
      (Response.listing cs2, cs2)
  else if truthyStr status = true then
    let cs2 := statusUpdate status id cs
    (Response.listing cs2, cs2)
  else (Response.listing cs, cs)

/-- Outcome of the serialized transaction: either a clean commit, or a
storage error in one of its statements together with the table state that
is nonetheless committed. -/
inductive TxOutcome where
  | committed (cs : List Client)
  | storageError (committed : List Client)
deriving Repr, DecidableEq

/-- Model of the serialized transaction of the priority branch
(src/server.js lines 153-174): BEGIN; shift; target set; COMMIT.  `failSet`
injects a storage failure in the second UPDATE (the target set).  The
handler has no ROLLBACK path: the failing statement's callback sends a 500
response but the already-queued COMMIT still runs, and SQLite's
statement-level abort undoes only the failing statement, so on such a
failure the displacement shift alone is committed. -/
def runPriorityTransaction (failSet : Bool) (cs : List Client) (id : Int)
    (status : Option String) (p : Int) : TxOutcome :=
  let cs1 := shiftUpdate status p cs
  if failSet then TxOutcome.storageError cs1
  else TxOutcome.committed (setUpdate status p id cs1)

/-- The ranks (in row order) of the records currently in lane `L`. -/
def laneRanks (L : String) (cs : List Client) : List Int :=
  (cs.filter fun c => decide (c.status = some L)).map Client.priority

/-- No two records in lane `L` share a rank. -/
def laneUnique (L : String) (cs : List Client) : Prop :=
  (laneRanks L cs).Nodup

instance (L : String) (cs : List Client) : Decidable (laneUnique L cs) := by
  unfold laneUnique
  infer_instance

/-- The per-lane uniqueness invariant for each of the three lanes. -/
def allLanesUnique (cs : List Client) : Prop :=
  laneUnique backlogLane cs ∧ laneUnique inProgressLane cs ∧ laneUnique completeLane cs

instance (cs : List Client) : Decidable (allLanesUnique cs) := by
  unfold allLanesUnique
  infer_instance

theorem shiftRow_id (status : Option String) (p : Int) (c : Client) :
    (shiftRow status p c).id = c.id := by
  unfold shiftRow
  split <;> rfl

theorem shiftRow_status (status : Option String) (p : Int) (c : Client) :
    (shiftRow status p c).status = c.status := by
  unfold shiftRow
  split <;> rfl

theorem shiftRow_of_match_ge (status : Option String) (p : Int) (c : Client)
    (hst : sqlStatusEq status c.status = true) (h : p ≤ c.priority) :
    shiftRow status p c = { c with priority := c.priority + 1 } := by
  unfold shiftRow
  rw [if_pos ⟨hst, h⟩]

theorem shiftRow_of_lt (status : Option String) (p : Int) (c : Client)
    (h : c.priority < p) : shiftRow status p c = c := by
  unfold shiftRow
  rw [if_neg]
  rintro ⟨-, h2⟩
  omega

theorem shiftRow_of_nomatch (status : Option String) (p : Int) (c : Client)
    (hst : sqlStatusEq status c.status = false) : shiftRow status p c = c := by
  unfold shiftRow
  rw [if_neg]
  rintro ⟨h1, -⟩
  rw [hst] at h1
  exact Bool.false_ne_true h1

theorem setRow_of_eq (status : Option String) (p : Int) (id : Int) (c : Client)
    (h : c.id = id) : setRow status p id c = { c with status := status, priority := p } := by
  unfold setRow
  rw [if_pos h]

theorem setRow_of_ne (status : Option String) (p : Int) (id : Int) (c : Client)
    (h : c.id ≠ id) : setRow status p id c = c := by
  unfold setRow
  rw [if_neg h]

/-- Claim C7 (confirmed): an update request whose id matches no record is
rejected as `NotFound` (400, invalid-id message) and the store is untouched,
whatever the optional lane and rank fields are. -/
theorem c7_not_found (cs : List Client) (id : Int) (status : Option String)
    (priority : Option Int)
    (h : (cs.any fun c => c.id == id) = false) :
    updateRecord cs id status priority = (Response.notFound, cs) := by
  unfold updateRecord
  rw [h]
  simp

theorem c7_not_found_witness :
    updateRecord [⟨1, some backlogLane, 1⟩] 99 none (some 1) =
      (Response.notFound, [⟨1, some backlogLane, 1⟩]) :=
  c7_not_found [⟨1, some backlogLane, 1⟩] 99 none (some 1) (by decide)

/-- Claim C8 (counterexample to the claim as stated): the empty string is a
string other than the three lane tokens, yet `updateRecord(1, {lane: ""})`
is not rejected as `InvalidLane`: the JS guard `status && ...` treats the
empty string as absent and the handler answers 200 with the unchanged
listing. -/
theorem c8_claim_counterexample :
    lanes.contains emptyStr = false ∧
    updateRecord [⟨1, some backlogLane, 1⟩] 1 (some emptyStr) none =
      (Response.listing [⟨1, some backlogLane, 1⟩], [⟨1, some backlogLane, 1⟩]) := by
  decide

/-- Claim C8 (corrected): an update request on an existing id whose supplied
lane is a non-empty string outside {backlog, inProgress, complete} is
rejected as `InvalidLane` and the store is untouched. -/
theorem c8_invalid_lane (cs : List Client) (id : Int) (s : String)
    (priority : Option Int)
    (hex : (cs.any fun c => c.id == id) = true)
    (hne : s ≠ "")
    (hs : lanes.contains s = false) :
    updateRecord cs id (some s) priority = (Response.invalidStatus, cs) := by
  unfold updateRecord
  rw [hex]
  have hfail : statusCheckFails (some s) = true := by
    simp [statusCheckFails, truthyStr, Option.getD, bne_iff_ne, hne]
    simpa using hs
  rw [hfail]
  simp

theorem c8_invalid_lane_witness :
    updateRecord [⟨1, some backlogLane, 1⟩] 1 (some urgentLane) none =
      (Response.invalidStatus, [⟨1, some backlogLane, 1⟩]) :=
  c8_invalid_lane [⟨1, some backlogLane, 1⟩] 1 urgentLane none (by decide) (by decide)
    (by decide)

/-- Claim C9 (confirmed): an update request on an existing id that supplies
a valid lane but no rank sets the target record's lane to that lane while
keeping its rank, and leaves every other record completely unchanged (no
displacement shift runs). -/
theorem c9_lane_only (cs : List Client) (id : Int) (L : String)
    (hex : (cs.any fun c => c.id == id) = true)
    (hL : lanes.contains L = true) :
    ∀ (i : Nat) (c : Client), cs[i]? = some c →
      ((c.id = id →
          (updateRecord cs id (some L) none).2[i]? = some { c with status := some L }) ∧
       (c.id ≠ id → (updateRecord cs id (some L) none).2[i]? = some c)) := by
  have hne : L ≠ "" := by
    intro h
    rw [h] at hL
    exact absurd hL (by decide)
  have hmem : L ∈ lanes := by
    simpa using hL
  have hsc : statusCheckFails (some L) = false := by
    simp [statusCheckFails, Option.getD, hmem]
  have htS : truthyStr (some L) = true := by
    simp [truthyStr, bne_iff_ne, hne]
  have hstep : updateRecord cs id (some L) none =
      (Response.listing (statusUpdate (some L) id cs), statusUpdate (some L) id cs) := by
    unfold updateRecord
    rw [hex, hsc]
    simp [truthyInt, htS]
  intro i c hc
  constructor
  · intro hid
    rw [hstep]
    simp [statusUpdate, statusRow, List.getElem?_map, hc, hid]
  · intro hid
    rw [hstep]
    simp [statusUpdate, statusRow, List.getElem?_map, hc, hid]

theorem c9_lane_only_witness :
    (updateRecord [⟨1, some backlogLane, 5⟩] 1 (some completeLane) none).2[0]? =
      some ⟨1, some completeLane, 5⟩ :=
  ((c9_lane_only [⟨1, some backlogLane, 5⟩] 1 completeLane (by decide) (by decide)) 0
      ⟨1, some backlogLane, 5⟩ (by decide)).1 (by decide)

/-- Claim C10 (confirmed): an update request on an existing id that supplies
neither a lane nor a rank succeeds: it mutates nothing and answers 200 with
the full listing of all records. -/
theorem c10_noop (cs : List Client) (id : Int)
    (hex : (cs.any fun c => c.id == id) = true) :
    updateRecord cs id none none = (Response.listing cs, cs) := by
  unfold updateRecord
  rw [hex]
  simp [statusCheckFails, truthyStr, truthyInt]

theorem c10_noop_witness :
    updateRecord [⟨1, some backlogLane, 1⟩] 1 none none =
      (Response.listing [⟨1, some backlogLane, 1⟩], [⟨1, some backlogLane, 1⟩]) :=
  c10_noop [⟨1, some backlogLane, 1⟩] 1 (by decide)

/-- Claim C3 (confirmed): with lane `backlog` holding exactly the records
(id=1, rank=1), (id=2, rank=2), (id=3, rank=3), the request
`updateRecord(3, {lane: "backlog", rank: 1})` succeeds and yields id=1 at
rank 2, id=2 at rank 3 and id=3 at rank 1, all still in `backlog`. -/
theorem c3_scenarioA :
    updateRecord
      [⟨1, some backlogLane, 1⟩, ⟨2, some backlogLane, 2⟩, ⟨3, some backlogLane, 3⟩]
      3 (some backlogLane) (some 1) =
    (Response.listing
      [⟨1, some backlogLane, 2⟩, ⟨2, some backlogLane, 3⟩, ⟨3, some backlogLane, 1⟩],
      [⟨1, some backlogLane, 2⟩, ⟨2, some backlogLane, 3⟩, ⟨3, some backlogLane, 1⟩]) := by
  decide

/-- Claim C5 (code bug): a request that supplies only a rank is meant to
leave the record's lane unchanged, but the handler's second UPDATE binds the
absent `status` as SQL NULL, so the record's lane is erased: on the store
holding (id=1, lane=backlog, rank=1), `updateRecord(1, {rank: 2})` commits
(id=1, lane=NULL, rank=2) instead of keeping lane `backlog`. -/
theorem c5_null_lane :
    updateRecord [⟨1, some backlogLane, 1⟩] 1 none (some 2) =
      (Response.listing [⟨1, none, 2⟩], [⟨1, none, 2⟩]) ∧
    ([⟨1, none, 2⟩] : List Client) ≠ [⟨1, some backlogLane, 2⟩] := by
  decide

/-- Claim C6 (code bug): `updateRecord(1, {rank: 0})` is meant to be
rejected as `InvalidRank`, but `if (priority)` treats the number 0 as
absent, so `validatePriority` never runs and the handler answers 200 with
the unchanged listing instead of the error. -/
theorem c6_zero_rank_accepted :
    updateRecord [⟨1, some backlogLane, 1⟩] 1 none (some 0) =
      (Response.listing [⟨1, some backlogLane, 1⟩], [⟨1, some backlogLane, 1⟩]) := by
  decide

/-- Claim C4 (code bug): when the target-set statement of the transaction
fails, the claim requires the store to end in its pre-transaction state, but
the handler never rolls back and the queued COMMIT still runs, committing
the displacement shift alone: from backlog ranks (id=1, rank=1),
(id=2, rank=2), a failed `updateRecord(1, {lane: "backlog", rank: 1})`
leaves the shifted state (id=1, rank=2), (id=2, rank=3). -/
theorem c4_shift_committed_on_failure :
    runPriorityTransaction true
        [⟨1, some backlogLane, 1⟩, ⟨2, some backlogLane, 2⟩] 1 (some backlogLane) 1 =
      TxOutcome.storageError [⟨1, some backlogLane, 2⟩, ⟨2, some backlogLane, 3⟩] ∧
    ([⟨1, some backlogLane, 2⟩, ⟨2, some backlogLane, 3⟩] : List Client) ≠
      [⟨1, some backlogLane, 1⟩, ⟨2, some backlogLane, 2⟩] := by
  decide

theorem updateRecord_rank_branch (cs : List Client) (id p : Int) (status : Option String)
    (hex : (cs.any fun c => c.id == id) = true)
    (hsc : statusCheckFails status = false)
    (hp : 0 < p) :
    updateRecord cs id status (some p) =
      (Response.listing (setUpdate status p id (shiftUpdate status p cs)),
       setUpdate status p id (shiftUpdate status p cs)) := by
  unfold updateRecord
  rw [hex, hsc]
  have ht : truthyInt (some p) = true := by
    simp only [truthyInt, bne_iff_ne, ne_eq, decide_not]
    omega
  have hv : validatePriority p = true := by
    unfold validatePriority
    rw [if_neg]
    omega
  rw [ht]
  simp [Option.getD, hv]

/-- Claim C1 (counterexample to the claim as stated): the claim quantifies
over every record in the target lane with prior rank at or above the target
rank, which includes the target record itself.  With the store holding the
single record (id=1, lane=backlog, rank=3), the request
`updateRecord(1, {lane: "backlog", rank: 1})` must, per the claim, raise
that record's rank from 3 to 4, but the handler's second UPDATE overwrites
the target's rank to 1. -/
theorem c1_claim_counterexample :
    ([⟨1, some backlogLane, 3⟩] : List Client)[0]? = some ⟨1, some backlogLane, 3⟩ ∧
    (1 : Int) ≤ 3 ∧
    (updateRecord [⟨1, some backlogLane, 3⟩] 1 (some backlogLane) (some 1)).2[0]? =
      some ⟨1, some backlogLane, 1⟩ ∧
    (updateRecord [⟨1, some backlogLane, 3⟩] 1 (some backlogLane) (some 1)).2[0]? ≠
      some (⟨1, some backlogLane, 3 + 1⟩ : Client) := by
  decide

/-- Claim C1 (corrected): for a successful update supplying a positive
target rank R and a valid target lane L, every record OTHER THAN THE TARGET
in lane L with prior rank ≥ R has its rank incremented by exactly 1, every
record other than the target in lane L with prior rank < R keeps its rank
(and whole row) unchanged, and the target row itself ends in lane L at
rank R. -/
theorem c1_displacement_shift (cs : List Client) (id R : Int) (L : String)
    (hex : (cs.any fun c => c.id == id) = true)
    (hL : lanes.contains L = true)
    (hR : 0 < R) :
    ∀ (i : Nat) (c : Client), cs[i]? = some c →
      ((c.id ≠ id → c.status = some L → R ≤ c.priority →
          (updateRecord cs id (some L) (some R)).2[i]? =
            some { c with priority := c.priority + 1 }) ∧
       (c.id ≠ id → c.status = some L → c.priority < R →
          (updateRecord cs id (some L) (some R)).2[i]? = some c) ∧
       (c.id = id →
          (updateRecord cs id (some L) (some R)).2[i]? =
            some { c with status := some L, priority := R })) := by
  have hmem : L ∈ lanes := by
    simpa using hL
  have hsc : statusCheckFails (some L) = false := by
    simp [statusCheckFails, Option.getD, hmem]
  have hstep := updateRecord_rank_branch cs id R (some L) hex hsc hR
  intro i c hc
  have hLL : sqlStatusEq (some L) (some L) = true := by
    simp [sqlStatusEq]
  refine ⟨?_, ?_, ?_⟩
  · intro hid hst hge
    rw [hstep]
    have hrow : shiftRow (some L) R c = { c with priority := c.priority + 1 } :=
      shiftRow_of_match_ge (some L) R c (by rw [hst]; exact hLL) hge
    have hrow2 : setRow (some L) R id (shiftRow (some L) R c) =
        { c with priority := c.priority + 1 } := by
      rw [hrow]
      exact setRow_of_ne _ _ _ _ hid
    simp [setUpdate, shiftUpdate, List.getElem?_map, hc, hrow2]
  · intro hid hst hlt
    rw [hstep]
    have hrow : shiftRow (some L) R c = c := shiftRow_of_lt (some L) R c hlt
    have hrow2 : setRow (some L) R id (shiftRow (some L) R c) = c := by
      rw [hrow]
      exact setRow_of_ne _ _ _ _ hid
    simp [setUpdate, shiftUpdate, List.getElem?_map, hc, hrow2]
  · intro hid
    rw [hstep]
    have hrow : setRow (some L) R id (shiftRow (some L) R c) =
        { c with status := some L, priority := R } := by
      have h1 : (shiftRow (some L) R c).id = id := by
        rw [shiftRow_id]
        exact hid
      rw [setRow_of_eq _ _ _ _ h1]
      unfold shiftRow
      split <;> rfl
    simp [setUpdate, shiftUpdate, List.getElem?_map, hc, hrow]

theorem c1_displacement_shift_witness :
    (updateRecord [⟨1, some backlogLane, 3⟩, ⟨2, some backlogLane, 1⟩] 2
        (some backlogLane) (some 1)).2[0]? =
      some { (⟨1, some backlogLane, 3⟩ : Client) with priority := 3 + 1 } :=
  ((c1_displacement_shift [⟨1, some backlogLane, 3⟩, ⟨2, some backlogLane, 1⟩] 2 1
      backlogLane (by decide) (by decide) (by decide)) 0 ⟨1, some backlogLane, 3⟩
      (by decide)).1 (by decide) (by decide) (by decide)

theorem uniq_pair_step (L : String) (id p : Int) (status : Option String) (a b : Client)
    (hid : a.id ≠ b.id)
    (hab : a.status = some L → b.status = some L → a.priority ≠ b.priority)
    (hsa : (setRow status p id (shiftRow status p a)).status = some L)
    (hsb : (setRow status p id (shiftRow status p b)).status = some L) :
    (setRow status p id (shiftRow status p a)).priority ≠
      (setRow status p id (shiftRow status p b)).priority := by
  by_cases ha : a.id = id
  · -- `a` is the target row: it ends with status = bound status and priority p.
    have hb : b.id ≠ id := fun h => hid (ha.trans h.symm)
    have h1 : setRow status p id (shiftRow status p a) =
        { shiftRow status p a with status := status, priority := p } :=
      setRow_of_eq _ _ _ _ (by rw [shiftRow_id]; exact ha)
    have h2 : setRow status p id (shiftRow status p b) = shiftRow status p b :=
      setRow_of_ne _ _ _ _ (by rw [shiftRow_id]; exact hb)
    rw [h1] at hsa ⊢
    rw [h2] at hsb ⊢
    have hstL : status = some L := hsa
    have hbst : b.status = some L := by
      rw [shiftRow_status] at hsb
      exact hsb
    have hmatch : sqlStatusEq status b.status = true := by
      rw [hstL, hbst]
      simp [sqlStatusEq]
    rcases le_or_lt p b.priority with h | h
    · rw [shiftRow_of_match_ge _ _ _ hmatch h]
      simp only
      omega
    · rw [shiftRow_of_lt _ _ _ h]
      simp only
      omega
  · by_cases hb : b.id = id
    · -- `b` is the target row; symmetric to the previous case.
      have h1 : setRow status p id (shiftRow status p a) = shiftRow status p a :=
        setRow_of_ne _ _ _ _ (by rw [shiftRow_id]; exact ha)
      have h2 : setRow status p id (shiftRow status p b) =
          { shiftRow status p b with status := status, priority := p } :=
        setRow_of_eq _ _ _ _ (by rw [shiftRow_id]; exact hb)
      rw [h1] at hsa ⊢
      rw [h2] at hsb ⊢
      have hstL : status = some L := hsb
      have hast : a.status = some L := by
        rw [shiftRow_status] at hsa
        exact hsa
      have hmatch : sqlStatusEq status a.status = true := by
        rw [hstL, hast]
        simp [sqlStatusEq]
      rcases le_or_lt p a.priority with h | h
      · rw [shiftRow_of_match_ge _ _ _ hmatch h]
        simp only
        omega
      · rw [shiftRow_of_lt _ _ _ h]
        simp only
        omega
    · -- Neither row is the target: both keep their lane, and the shift is
      -- injective on priorities.
      have h1 : setRow status p id (shiftRow status p a) = shiftRow status p a :=
        setRow_of_ne _ _ _ _ (by rw [shiftRow_id]; exact ha)
      have h2 : setRow status p id (shiftRow status p b) = shiftRow status p b :=
        setRow_of_ne _ _ _ _ (by rw [shiftRow_id]; exact hb)
      rw [h1] at hsa ⊢
      rw [h2] at hsb ⊢
      have hast : a.status = some L := by
        rw [shiftRow_status] at hsa
        exact hsa
      have hbst : b.status = some L := by
        rw [shiftRow_status] at hsb
        exact hsb
      have hne := hab hast hbst
      by_cases hm : sqlStatusEq status (some L) = true
      · have hma : sqlStatusEq status a.status = true := by rw [hast]; exact hm
        have hmb : sqlStatusEq status b.status = true := by rw [hbst]; exact hm
        rcases le_or_lt p a.priority with h3 | h3 <;>
          rcases le_or_lt p b.priority with h4 | h4
        · rw [shiftRow_of_match_ge _ _ _ hma h3, shiftRow_of_match_ge _ _ _ hmb h4]
          simp only
          omega
        · rw [shiftRow_of_match_ge _ _ _ hma h3, shiftRow_of_lt _ _ _ h4]
          simp only
          omega
        · rw [shiftRow_of_lt _ _ _ h3, shiftRow_of_match_ge _ _ _ hmb h4]
          simp only
          omega
        · rw [shiftRow_of_lt _ _ _ h3, shiftRow_of_lt _ _ _ h4]
          exact hne
      · have hm' : sqlStatusEq status (some L) = false := by
          cases h : sqlStatusEq status (some L)
          · rfl
          · exact absurd h hm
        have hma : sqlStatusEq status a.status = false := by rw [hast]; exact hm'
        have hmb : sqlStatusEq status b.status = false := by rw [hbst]; exact hm'
        rw [shiftRow_of_nomatch _ _ _ hma, shiftRow_of_nomatch _ _ _ hmb]
        exact hne

theorem laneUnique_shift_set (L : String) (cs : List Client) (id p : Int)
    (status : Option String)
    (hids : (cs.map Client.id).Nodup)
    (hu : laneUnique L cs) :
    laneUnique L (setUpdate status p id (shiftUpdate status p cs)) := by
  unfold laneUnique laneRanks at hu ⊢
  unfold setUpdate shiftUpdate
  rw [List.map_map]
  unfold List.Nodup at hu hids ⊢
  rw [List.pairwise_map, List.pairwise_filter] at hu
  rw [List.pairwise_map] at hids
  rw [List.pairwise_map, List.pairwise_filter, List.pairwise_map]
  refine List.Pairwise.imp ?_ (hu.and hids)
  rintro a b ⟨hab, hid⟩
  intro hsa hsb
  exact uniq_pair_step L id p status a b hid hab hsa hsb

/-- Claim C2 (counterexample to the claim as stated): a request that
supplies priority 0 together with a lane is "an updateRecord with a
priority supplied" and it succeeds, but JS truthiness routes it to the
status-only branch, which moves the record into the new lane without
re-ranking: starting from the rank-unique store (id=1, backlog, rank 1),
(id=2, complete, rank 1), the request `updateRecord(1, {lane: "complete",
rank: 0})` succeeds and leaves lane `complete` with two records of rank 1. -/
theorem c2_claim_counterexample :
    allLanesUnique [⟨1, some backlogLane, 1⟩, ⟨2, some completeLane, 1⟩] ∧
    (updateRecord [⟨1, some backlogLane, 1⟩, ⟨2, some completeLane, 1⟩] 1
        (some completeLane) (some 0)).1 =
      Response.listing [⟨1, some completeLane, 1⟩, ⟨2, some completeLane, 1⟩] ∧
    ¬ allLanesUnique (updateRecord [⟨1, some backlogLane, 1⟩, ⟨2, some completeLane, 1⟩] 1
        (some completeLane) (some 0)).2 := by
  decide

/-- Claim C2 (corrected): for a store state with pairwise-distinct record
ids in which no two records in the same lane share a rank, any update that
supplies a nonzero priority — the requests the code treats as rank changes;
priority 0 is treated as absent — leaves a store state in which, for each of
the lanes backlog, inProgress and complete, no two records share a rank
(error outcomes leave the store untouched). -/
theorem c2_uniqueness_preserved (cs : List Client) (id p : Int) (status : Option String)
    (hids : (cs.map Client.id).Nodup)
    (hp : p ≠ 0)
    (hu : allLanesUnique cs) :
    allLanesUnique (updateRecord cs id status (some p)).2 := by
  by_cases hA : (cs.any fun c => c.id == id) = true
  · by_cases hS : statusCheckFails status = true
    · have hstep : updateRecord cs id status (some p) = (Response.invalidStatus, cs) := by
        unfold updateRecord
        rw [hA, hS]
        simp
      rw [hstep]
      exact hu
    · have hS' : statusCheckFails status = false := by
        cases h : statusCheckFails status
        · rfl
        · exact absurd h hS
      by_cases hv : 0 < p
      · rw [updateRecord_rank_branch cs id p status hA hS' hv]
        obtain ⟨h1, h2, h3⟩ := hu
        exact ⟨laneUnique_shift_set backlogLane cs id p status hids h1,
               laneUnique_shift_set inProgressLane cs id p status hids h2,
               laneUnique_shift_set completeLane cs id p status hids h3⟩
      · have hstep : updateRecord cs id status (some p) = (Response.invalidPriority, cs) := by
          unfold updateRecord
          rw [hA, hS']
          have ht : truthyInt (some p) = true := by
            simp [truthyInt, bne_iff_ne, hp]
          rw [ht]
          have hvf : validatePriority p = false := by
            unfold validatePriority
            rw [if_pos]
            omega
          simp [Option.getD, hvf]
        rw [hstep]
        exact hu
  · have hA' : (cs.any fun c => c.id == id) = false := by
      cases h : (cs.any fun c => c.id == id)
      · rfl
      · exact absurd h hA
    have hstep : updateRecord cs id status (some p) = (Response.notFound, cs) := by
      unfold updateRecord
      rw [hA']
      simp
    rw [hstep]
    exact hu

theorem c2_uniqueness_preserved_witness :
    allLanesUnique (updateRecord
      [⟨1, some backlogLane, 1⟩, ⟨2, some backlogLane, 2⟩, ⟨3, some backlogLane, 3⟩]
      3 (some backlogLane) (some 1)).2 :=
  c2_uniqueness_preserved
    [⟨1, some backlogLane, 1⟩, ⟨2, some backlogLane, 2⟩, ⟨3, some backlogLane, 3⟩]
    3 1 (some backlogLane) (by decide) (by decide) (by decide)
